import Mathlib

/-!
Shallow embedding of the PRPO-skupina-02/auth microservice core:
user data model and store operations (models/user.go), the credential
validator, the request-authentication middleware and role authorizer
(api handlers and middleware), and the token engine (package auth).
Machine-checked statements of the specification's claims follow the
definitions.
-/

namespace AuthService

/-- Role enumeration from models/user.go (`UserRole`, constants
`RoleCustomer`, `RoleEmployee`, `RoleAdmin`). -/
inductive UserRole where
  | customer
  | employee
  | admin
deriving DecidableEq, Repr

/-- Predicate `UserRole.IsValid` from models/user.go. -/
def UserRole.IsValid : UserRole → Bool
  | .customer => true
  | .employee => true
  | .admin => true

/-- The `User` record from models/user.go. The uuid identifier and the
timestamps are modelled as natural numbers (opaque identifiers / seconds). -/
structure User where
  id : Nat
  createdAt : Nat
  updatedAt : Nat
  email : String
  passwordHash : String
  firstName : String
  lastName : String
  role : UserRole
  active : Bool
deriving DecidableEq, Repr

/-- The credential store, modelled as the list of user rows; gorm's
`First` on a `where` clause is `List.find?`. -/
def GetUser (store : List User) (id : Nat) : Option User :=
  store.find? (fun u => u.id == id)

/-- Lookup `GetUserByEmail` from models/user.go: first row whose email matches
exactly. -/
def GetUserByEmail (store : List User) (email : String) : Option User :=
  store.find? (fun u => u.email == email)

/-- Check `UserExists` from models/user.go: count of rows with this email is
positive. -/
def UserExists (store : List User) (email : String) : Bool :=
  store.any (fun u => u.email == email)

/-- Store write `tx.Save` on a user: replace the row with the matching id. -/
def SaveUser (store : List User) (u : User) : List User :=
  store.map (fun v => if v.id == u.id then u else v)

/-- Validator `ValidateCredentials` from models/user.go. `check hash password`
abstracts `bcrypt.CompareHashAndPassword` succeeding; the function
returns the user or the error message the Go code builds with
`errors.New`. -/
def ValidateCredentials (check : String → String → Bool) (store : List User)
    (email password : String) : Except String User :=
  match GetUserByEmail store email with
  | none => Except.error "invalid credentials"
  | some user =>
    if user.active = false then Except.error "user account is inactive"
    else if check user.passwordHash password = false then
      Except.error "invalid credentials"
    else Except.ok user

/-- Modelled from the spec: the token claims of §4.2 and the glossary
(subject id, subject email, issued-at, expiry); the `auth` package that
defines them is not among the provided source files. -/
structure Claims where
  userID : Nat
  email : String
  issuedAt : Nat
  expiresAt : Nat
deriving DecidableEq, Repr

/-- Modelled from the spec: a token is a self-contained signed credential —
its claims plus an HMAC-class signature over them (§3, §4.2); the `auth`
package is not among the provided source files. -/
structure Token where
  claims : Claims
  sig : Nat
deriving DecidableEq, Repr

/-- Modelled from the spec: symmetric signing of the claims with the single
process-wide shared secret (§4.2); the concrete HMAC of the missing `auth`
package is abstracted to a keyed checksum reduced modulo a 64-bit word. -/
def mac (secret : Nat) (c : Claims) : Nat :=
  (secret + 31 * c.userID + 7 * c.email.length + 3 * c.issuedAt + c.expiresAt) % (2 ^ 64)

/-- Access-token lifetime: 24 hours in seconds (§4.2, and the literal
86400 in the Login and RefreshToken handlers). -/
def accessTokenLifetime : Nat := 86400

/-- Refresh-token lifetime: 7 days in seconds (§4.2). -/
def refreshTokenLifetime : Nat := 604800

/-- Modelled from the spec: `auth.GenerateToken` — issue an access token
bound to a user identity, expiring 24 hours after issuance (§4.2); the
`auth` package is not among the provided source files. -/
def GenerateToken (secret now userID : Nat) (email : String) : Token :=
  let c : Claims :=
    { userID := userID, email := email, issuedAt := now
      expiresAt := now + accessTokenLifetime }
  { claims := c, sig := mac secret c }

/-- Modelled from the spec: `auth.GenerateRefreshToken` — same claims as an
access token except the 7-day expiry window (§4.2); the `auth` package is
not among the provided source files. -/
def GenerateRefreshToken (secret now userID : Nat) (email : String) : Token :=
  let c : Claims :=
    { userID := userID, email := email, issuedAt := now
      expiresAt := now + refreshTokenLifetime }
  { claims := c, sig := mac secret c }

/-- Modelled from the spec: `auth.ValidateToken` — verify the signature
against the shared secret and reject expired tokens, with all failures
collapsed to one invalid outcome (§4.2); the `auth` package is not among
the provided source files. Validity is evaluated strictly before expiry. -/
def ValidateToken (secret now : Nat) (t : Token) : Option Claims :=
  if t.sig = mac secret t.claims then
    if now < t.claims.expiresAt then some t.claims else none
  else none

/-- The `UserResponse` serialization struct (handlers file): the public
profile rendered by every endpoint that returns a user; it has no
password-hash field. -/
structure UserResponse where
  id : Nat
  createdAt : Nat
  updatedAt : Nat
  email : String
  firstName : String
  lastName : String
  role : UserRole
  active : Bool
deriving DecidableEq, Repr

/-- Serializer `newUserResponse` from the handlers file. -/
def newUserResponse (user : User) : UserResponse :=
  { id := user.id, createdAt := user.createdAt, updatedAt := user.updatedAt
    email := user.email, firstName := user.firstName
    lastName := user.lastName, role := user.role, active := user.active }

/-- Body `RegisterRequest` from the handlers file: the self-registration body
carries only email, password and the optional names. -/
structure RegisterRequest where
  email : String
  password : String
  firstName : String
  lastName : String
deriving DecidableEq, Repr

/-- Outcome of the register handler: 409 Conflict or 201 Created with the
serialized user. -/
inductive RegisterOutcome where
  | conflict (msg : String)
  | created (resp : UserResponse)
deriving DecidableEq, Repr

/-- The user literal `RegisterUser` builds: role hardcoded to customer,
active hardcoded to true, hash from `SetPassword`; id and timestamps are
assigned by the store on `Create`. -/
def registeredUser (hash : String → String) (newId now : Nat)
    (req : RegisterRequest) : User :=
  { id := newId, createdAt := now, updatedAt := now, email := req.email
    passwordHash := hash req.password, firstName := req.firstName
    lastName := req.lastName, role := UserRole.customer, active := true }

/-- Handler `RegisterUser` from the handlers file: duplicate-email check, then
creation of a customer row; returns the outcome and the store after the
call. -/
def RegisterUser (hash : String → String) (newId now : Nat)
    (store : List User) (req : RegisterRequest) : RegisterOutcome × List User :=
  if UserExists store req.email then
    (RegisterOutcome.conflict "User with this email already exists", store)
  else
    let user := registeredUser hash newId now req
    (RegisterOutcome.created (newUserResponse user), store ++ [user])

/-- Outcome of the verify handler: 401 or 200 with the user profile. -/
inductive VerifyOutcome where
  | unauthorized (msg : String)
  | ok (resp : UserResponse)
deriving DecidableEq, Repr

/-- Whether a verify outcome is the 200 branch. -/
def VerifyOutcome.isOk : VerifyOutcome → Bool
  | .unauthorized _ => false
  | .ok _ => true

/-- The `VerifyToken` handler from the handlers file. `validateTok` abstracts
`auth.ValidateToken` on the wire-format (string) token. -/
def VerifyTokenHandler (validateTok : String → Option Claims)
    (store : List User) (tokenStr : String) : VerifyOutcome :=
  match validateTok tokenStr with
  | none => VerifyOutcome.unauthorized "Invalid or expired token"
  | some claims =>
    match GetUser store claims.userID with
    | none => VerifyOutcome.unauthorized "User not found"
    | some user =>
      if user.active = false then
        VerifyOutcome.unauthorized "User account is inactive"
      else VerifyOutcome.ok (newUserResponse user)

/-- Outcome of the refresh handler: 401 or 200 with a fresh token pair and
the 86400-second access lifetime. -/
inductive RefreshOutcome where
  | unauthorized (msg : String)
  | ok (accessToken refreshToken : Token) (expiresIn : Nat)
deriving DecidableEq, Repr

/-- Whether a refresh outcome is the 200 branch. -/
def RefreshOutcome.isOk : RefreshOutcome → Bool
  | .unauthorized _ => false
  | .ok _ _ _ => true

/-- The `RefreshToken` handler from the handlers file: validates the presented
token with the same `auth.ValidateToken` used everywhere, re-fetches the
user, gates on the active flag, then mints a new pair. -/
def RefreshTokenHandler (validateTok : String → Option Claims)
    (secret now : Nat) (store : List User) (tokenStr : String) : RefreshOutcome :=
  match validateTok tokenStr with
  | none => RefreshOutcome.unauthorized "Invalid or expired refresh token"
  | some claims =>
    match GetUser store claims.userID with
    | none => RefreshOutcome.unauthorized "User not found"
    | some user =>
      if user.active = false then
        RefreshOutcome.unauthorized "User account is inactive"
      else
        RefreshOutcome.ok (GenerateToken secret now user.id user.email)
          (GenerateRefreshToken secret now user.id user.email) 86400

/-- Outcome of the request-authentication middleware: abort with 401, or
publish id, email and current role into the request context. -/
inductive AuthOutcome where
  | rejected (msg : String)
  | authenticated (userId : Nat) (email : String) (role : UserRole)
deriving DecidableEq, Repr

/-- Whether the middleware let the request through. -/
def AuthOutcome.isOk : AuthOutcome → Bool
  | .rejected _ => false
  | .authenticated _ _ _ => true

/-- The Go constant `bearerPrefix = "Bearer "` of the router file. -/
def bearerConst : String := "Bearer "

/-- Middleware `AuthMiddleware` from the router file, translated line by line: empty
header check, length-only check against the `"Bearer "` constant, slice of
the first seven characters, token validation, user re-fetch by the claims'
subject id, active-flag gate, context publication. An absent header is the
empty string, as `c.GetHeader` returns. -/
def AuthMiddleware (validateTok : String → Option Claims)
    (store : List User) (authHeader : String) : AuthOutcome :=
  if authHeader = "" then AuthOutcome.rejected "Authorization header required"
  else if authHeader.length < bearerConst.length then
    AuthOutcome.rejected "Invalid authorization header format"
  else
    let tokenString := authHeader.drop bearerConst.length
    match validateTok tokenString with
    | none => AuthOutcome.rejected "Invalid or expired token"
    | some claims =>
      match GetUser store claims.userID with
      | none => AuthOutcome.rejected "User not found"
      | some user =>
        if user.active = false then
          AuthOutcome.rejected "User account is inactive"
        else AuthOutcome.authenticated claims.userID claims.email user.role

/-- Outcome of the role-authorizer middleware. -/
inductive RoleOutcome where
  | forbidden (msg : String)
  | pass
deriving DecidableEq, Repr

/-- Middleware `RequireRole` from api/middleware.go: the context role is absent when
the authenticator did not publish one; the loop over the required roles is
membership of the context role. -/
def RequireRole (roles : List UserRole) (ctxRole : Option UserRole) : RoleOutcome :=
  match ctxRole with
  | none => RoleOutcome.forbidden "Role information not found"
  | some role =>
    if roles.any (fun requiredRole => role = requiredRole) then RoleOutcome.pass
    else RoleOutcome.forbidden "Insufficient permissions"

/-- Middleware `RequireAdmin` from api/middleware.go. -/
def RequireAdmin (ctxRole : Option UserRole) : RoleOutcome :=
  RequireRole [UserRole.admin] ctxRole

/-- Body `UpdateUserRequest` from the handlers file (profile self-update body);
gin leaves an omitted field as the empty string. -/
structure UpdateUserRequest where
  firstName : String
  lastName : String
deriving DecidableEq, Repr

/-- The field-update block of `UpdateCurrentUser`: a name is copied from
the request only when it is non-empty. -/
def applyUpdate (user : User) (req : UpdateUserRequest) : User :=
  let user := if req.firstName ≠ "" then { user with firstName := req.firstName } else user
  if req.lastName ≠ "" then { user with lastName := req.lastName } else user

/-- Handler `UpdateCurrentUser` from the handlers file: fetch the authenticated
user, apply the non-empty name fields, save, respond with the profile.
`none` is the error path when the user row is missing. -/
def UpdateCurrentUser (store : List User) (userID : Nat)
    (req : UpdateUserRequest) : Option (UserResponse × List User) :=
  match GetUser store userID with
  | none => none
  | some user =>
    let user := applyUpdate user req
    some (newUserResponse user, SaveUser store user)

/-- Concrete claims used to exercise the middleware on closed inputs. -/
def demoClaims : Claims :=
  { userID := 3, email := "customer@example.com", issuedAt := 0, expiresAt := 86400 }

/-- A concrete string-level token validator: accepts exactly the wire
token "tok3" as the demo claims. -/
def demoValidate : String → Option Claims :=
  fun s => if s = "tok3" then some demoClaims else none

/-- A concrete active customer row. -/
def demoUser : User :=
  { id := 3, createdAt := 0, updatedAt := 0, email := "customer@example.com"
    passwordHash := "hash3", firstName := "Cus", lastName := "Tomer"
    role := UserRole.customer, active := true }

/-- A store holding only the demo customer. -/
def demoStore : List User := [demoUser]

/-- The demo customer with the active flag cleared. -/
def inactiveUser : User := { demoUser with active := false }

/-- A store holding only the deactivated customer. -/
def inactiveStore : List User := [inactiveUser]

/-- A concrete password verifier: "pw3" matches the stored "hash3". -/
def demoCheck : String → String → Bool :=
  fun hash password => hash == "hash3" && password == "pw3"

/-- A registration body whose email collides with the demo customer. -/
def demoRegReq : RegisterRequest :=
  { email := "customer@example.com", password := "password123"
    firstName := "X", lastName := "Y" }

/-- A registration body with a fresh email. -/
def demoRegReq2 : RegisterRequest :=
  { email := "new@example.com", password := "password123"
    firstName := "X", lastName := "Y" }

/-- Rows mapped by an id-preserving function are found under the image of
the original row. -/
theorem GetUser_map (g : User → User) (hid : ∀ x, (g x).id = x.id)
    (store : List User) (uid : Nat) :
    GetUser (store.map g) uid = (GetUser store uid).map g := by
  unfold GetUser
  rw [List.find?_map]
  have hp : ((fun u : User => u.id == uid) ∘ g) = (fun u : User => u.id == uid) := by
    funext x
    simp [Function.comp, hid x]
  rw [hp]

/-- Claim C1 fails on the code: `AuthMiddleware` compares only the length
of the Authorization header against the `"Bearer "` constant and then
unconditionally slices off the first seven characters, so a header that
does not begin with "Bearer " still has its remainder extracted, validated
and — as here — successfully authenticated. -/
theorem authMiddleware_no_bearer_content_check :
    "XXXXXXXtok3".take bearerConst.length ≠ bearerConst ∧
    AuthMiddleware demoValidate demoStore "XXXXXXXtok3" =
      AuthOutcome.authenticated 3 "customer@example.com" UserRole.customer := by
  constructor
  · decide
  · decide

/-- Claim C3: credential validation checks existence, then the active
flag, then the password; an unknown email and a wrong password on an
existing active account produce literally the same "invalid credentials"
error, while an inactive account produces the distinct inactive error
whatever the password verifier would have said. -/
theorem validateCredentials_order_and_uniform_errors
    (check check' : String → String → Bool)
    (store store2 store3 : List User)
    (email email2 email3 pw pw2 pw3 : String) (u2 u3 : User)
    (hnone : GetUserByEmail store email = none)
    (hu2 : GetUserByEmail store2 email2 = some u2)
    (hact2 : u2.active = true)
    (hpw2 : check u2.passwordHash pw2 = false)
    (hu3 : GetUserByEmail store3 email3 = some u3)
    (hact3 : u3.active = false) :
    ValidateCredentials check store email pw = Except.error "invalid credentials" ∧
    ValidateCredentials check store2 email2 pw2 = Except.error "invalid credentials" ∧
    ValidateCredentials check store email pw = ValidateCredentials check store2 email2 pw2 ∧
    ValidateCredentials check' store3 email3 pw3 = Except.error "user account is inactive" := by
  refine ⟨?_, ?_, ?_, ?_⟩ <;>
    simp [ValidateCredentials, hnone, hu2, hu3, hact2, hpw2, hact3]

/-- Witness for claim C3 at concrete inputs: empty store misses the email,
the demo store has the active customer with a wrong password, and the
inactive store has the deactivated customer with an always-true verifier. -/
theorem validateCredentials_order_witness :
    ValidateCredentials demoCheck [] "nobody@example.com" "pw" =
      Except.error "invalid credentials" ∧
    ValidateCredentials demoCheck demoStore "customer@example.com" "wrong" =
      Except.error "invalid credentials" ∧
    ValidateCredentials demoCheck [] "nobody@example.com" "pw" =
      ValidateCredentials demoCheck demoStore "customer@example.com" "wrong" ∧
    ValidateCredentials (fun _ _ => true) inactiveStore "customer@example.com" "pw3" =
      Except.error "user account is inactive" :=
  validateCredentials_order_and_uniform_errors demoCheck (fun _ _ => true)
    [] demoStore inactiveStore "nobody@example.com" "customer@example.com"
    "customer@example.com" "pw" "wrong" "pw3" demoUser inactiveUser
    (by decide) (by decide) (by decide) (by decide) (by decide) (by decide)

/-- Claim C4: the Role Authorizer fails closed when no role was published,
passes exactly when the published role is a member of the allowed set, and
has no hierarchy — admin does not satisfy an employee-only gate. -/
theorem requireRole_membership (roles : List UserRole) (r : UserRole) :
    RequireRole roles none = RoleOutcome.forbidden "Role information not found" ∧
    (RequireRole roles (some r) = RoleOutcome.pass ↔ r ∈ roles) ∧
    RequireRole [UserRole.employee] (some UserRole.admin) =
      RoleOutcome.forbidden "Insufficient permissions" := by
  refine ⟨rfl, ?_, by decide⟩
  show (if (roles.any fun requiredRole => decide (r = requiredRole)) = true
      then RoleOutcome.pass
      else RoleOutcome.forbidden "Insufficient permissions") = RoleOutcome.pass ↔ r ∈ roles
  constructor
  · intro hp
    by_contra hmem
    rw [if_neg] at hp
    · exact RoleOutcome.noConfusion hp
    · intro hc
      obtain ⟨x, hx, hd⟩ := List.any_eq_true.mp hc
      exact hmem ((of_decide_eq_true hd).symm ▸ hx)
  · intro hmem
    rw [if_pos (List.any_eq_true.mpr ⟨r, hmem, by simp⟩)]

/-- Saving a row whose id is the one a lookup found makes the lookup
return the saved row. -/
theorem GetUser_SaveUser (store : List User) (uid : Nat) (u u' : User)
    (hget : GetUser store uid = some u) (hid : u'.id = u.id) :
    GetUser (SaveUser store u') uid = some u' := by
  unfold SaveUser
  have hpres : ∀ x : User, (if x.id == u'.id then u' else x).id = x.id := by
    intro x
    by_cases hc : (x.id == u'.id) = true
    · rw [if_pos hc]
      exact (eq_of_beq hc).symm
    · rw [if_neg hc]
  rw [GetUser_map _ hpres, hget]
  have hu : (u.id == u'.id) = true := by
    rw [hid]
    simp
  show some (if u.id == u'.id then u' else u) = some u'
  rw [if_pos hu]

/-- Claim C2: an inactive user is rejected with the inactive-account error
by all four authenticating operations — credential validation, token
verification, token refresh, and the request-authentication middleware —
even when the password verifier would accept and the token validates. -/
theorem inactive_user_rejected_everywhere
    (check : String → String → Bool) (validateTok : String → Option Claims)
    (secret now : Nat) (store : List User) (email pw s h : String)
    (claims : Claims) (u : User)
    (hactive : u.active = false)
    (hmail : GetUserByEmail store email = some u)
    (hv : validateTok s = some claims)
    (hid : GetUser store claims.userID = some u)
    (hlen : bearerConst.length ≤ h.length)
    (hdrop : h.drop bearerConst.length = s) :
    ValidateCredentials check store email pw = Except.error "user account is inactive" ∧
    VerifyTokenHandler validateTok store s =
      VerifyOutcome.unauthorized "User account is inactive" ∧
    RefreshTokenHandler validateTok secret now store s =
      RefreshOutcome.unauthorized "User account is inactive" ∧
    AuthMiddleware validateTok store h =
      AuthOutcome.rejected "User account is inactive" := by
  have hne : ¬ h = "" := by
    intro he
    rw [he] at hlen
    exact absurd hlen (by decide)
  have hnlt : ¬ h.length < bearerConst.length := Nat.not_lt.mpr hlen
  refine ⟨?_, ?_, ?_, ?_⟩
  · simp [ValidateCredentials, hmail, hactive]
  · simp [VerifyTokenHandler, hv, hid, hactive]
  · simp [RefreshTokenHandler, hv, hid, hactive]
  · simp [AuthMiddleware, hne, hnlt, hdrop, hv, hid, hactive]

/-- Witness for claim C2: the deactivated demo customer is rejected by all
four operations, with an always-accepting password verifier and a token
that validates. -/
theorem inactive_user_rejected_witness :
    ValidateCredentials (fun _ _ => true) inactiveStore "customer@example.com" "pw3" =
      Except.error "user account is inactive" ∧
    VerifyTokenHandler demoValidate inactiveStore "tok3" =
      VerifyOutcome.unauthorized "User account is inactive" ∧
    RefreshTokenHandler demoValidate 0 0 inactiveStore "tok3" =
      RefreshOutcome.unauthorized "User account is inactive" ∧
    AuthMiddleware demoValidate inactiveStore "Bearer tok3" =
      AuthOutcome.rejected "User account is inactive" :=
  inactive_user_rejected_everywhere (fun _ _ => true) demoValidate 0 0
    inactiveStore "customer@example.com" "pw3" "tok3" "Bearer tok3"
    demoClaims inactiveUser (by decide) (by decide) (by decide) (by decide)
    (by decide) (by decide)

/-- Claim C5: the middleware publishes the identity with the role re-read
from the store; deactivating the user in the store makes the very next
request carrying the same still-valid token be rejected as inactive. -/
theorem deactivation_effective_without_reissue
    (validateTok : String → Option Claims) (store : List User)
    (h s : String) (claims : Claims) (u : User)
    (hlen : bearerConst.length ≤ h.length)
    (hdrop : h.drop bearerConst.length = s)
    (hv : validateTok s = some claims)
    (hget : GetUser store claims.userID = some u)
    (hact : u.active = true) :
    AuthMiddleware validateTok store h =
      AuthOutcome.authenticated claims.userID claims.email u.role ∧
    AuthMiddleware validateTok (SaveUser store { u with active := false }) h =
      AuthOutcome.rejected "User account is inactive" := by
  have hne : ¬ h = "" := by
    intro he
    rw [he] at hlen
    exact absurd hlen (by decide)
  have hnlt : ¬ h.length < bearerConst.length := Nat.not_lt.mpr hlen
  have hgu : GetUser (SaveUser store { u with active := false }) claims.userID =
      some { u with active := false } :=
    GetUser_SaveUser store claims.userID u { u with active := false } hget rfl
  constructor
  · simp [AuthMiddleware, hne, hnlt, hdrop, hv, hget, hact]
  · simp [AuthMiddleware, hne, hnlt, hdrop, hv, hgu]

/-- Witness for claim C5: the demo customer authenticates with role
customer; after the active flag is cleared in the store, the same header
is rejected. -/
theorem deactivation_effective_witness :
    AuthMiddleware demoValidate demoStore "Bearer tok3" =
      AuthOutcome.authenticated 3 "customer@example.com" UserRole.customer ∧
    AuthMiddleware demoValidate (SaveUser demoStore { demoUser with active := false })
        "Bearer tok3" =
      AuthOutcome.rejected "User account is inactive" :=
  deactivation_effective_without_reissue demoValidate demoStore
    "Bearer tok3" "tok3" demoClaims demoUser (by decide) (by decide)
    (by decide) (by decide) (by decide)

/-- Claim C6: self-registration on a taken email fails with Conflict and
leaves the store unchanged; otherwise the created row has role customer
and active true whatever the request body said, and is appended after the
existing rows. -/
theorem register_forces_customer_and_conflict
    (hash : String → String) (newId now : Nat) (store store2 : List User)
    (req req2 : RegisterRequest)
    (hex : UserExists store req.email = true)
    (hnex : UserExists store2 req2.email = false) :
    RegisterUser hash newId now store req =
      (RegisterOutcome.conflict "User with this email already exists", store) ∧
    RegisterUser hash newId now store2 req2 =
      (RegisterOutcome.created (newUserResponse (registeredUser hash newId now req2)),
        store2 ++ [registeredUser hash newId now req2]) ∧
    (registeredUser hash newId now req2).role = UserRole.customer ∧
    (registeredUser hash newId now req2).active = true := by
  refine ⟨?_, ?_, rfl, rfl⟩
  · simp [RegisterUser, hex]
  · simp [RegisterUser, hnex]

/-- Witness for claim C6: re-registering the demo customer's email
conflicts and leaves the store as it was; a fresh email creates an active
customer row. -/
theorem register_witness :
    RegisterUser (fun _ => "H") 9 5 demoStore demoRegReq =
      (RegisterOutcome.conflict "User with this email already exists", demoStore) ∧
    RegisterUser (fun _ => "H") 9 5 [] demoRegReq2 =
      (RegisterOutcome.created (newUserResponse (registeredUser (fun _ => "H") 9 5 demoRegReq2)),
        [] ++ [registeredUser (fun _ => "H") 9 5 demoRegReq2]) ∧
    (registeredUser (fun _ => "H") 9 5 demoRegReq2).role = UserRole.customer ∧
    (registeredUser (fun _ => "H") 9 5 demoRegReq2).active = true :=
  register_forces_customer_and_conflict (fun _ => "H") 9 5 demoStore []
    demoRegReq demoRegReq2 (by decide) (by decide)

/-- Claim C7: issuing an access token and validating it strictly before
its expiry returns claims with the same id and email, and validating the
same still-valid token at two (possibly different) times before expiry
yields identical claims. -/
theorem token_roundtrip_idempotent
    (secret id t0 t1 t2 : Nat) (email : String)
    (h1 : t1 < t0 + accessTokenLifetime)
    (h2 : t2 < t0 + accessTokenLifetime) :
    ValidateToken secret t1 (GenerateToken secret t0 id email) =
      some { userID := id, email := email, issuedAt := t0
             expiresAt := t0 + accessTokenLifetime } ∧
    ValidateToken secret t2 (GenerateToken secret t0 id email) =
      some { userID := id, email := email, issuedAt := t0
             expiresAt := t0 + accessTokenLifetime } := by
  constructor <;> simp [ValidateToken, GenerateToken, h1, h2]

/-- Witness for claim C7 at concrete inputs. -/
theorem token_roundtrip_witness :
    ValidateToken 7 1 (GenerateToken 7 0 3 "customer@example.com") =
      some { userID := 3, email := "customer@example.com", issuedAt := 0
             expiresAt := 0 + accessTokenLifetime } ∧
    ValidateToken 7 2 (GenerateToken 7 0 3 "customer@example.com") =
      some { userID := 3, email := "customer@example.com", issuedAt := 0
             expiresAt := 0 + accessTokenLifetime } :=
  token_roundtrip_idempotent 7 3 0 1 2 "customer@example.com"
    (by decide) (by decide)

/-- Claim C8: the refresh endpoint, the verify endpoint and the request
authenticator all gate on one and the same token validator, so a token is
accepted at one exactly when it is accepted at the others; and in the
token engine the two token classes share every claim except the expiry
window, with no class discriminator checked at validation — a refresh
token still inside its window passes the common validator. -/
theorem refresh_access_same_validator
    (validateTok : String → Option Claims) (secret now issueTime valTime : Nat)
    (store : List User) (s h : String) (id : Nat) (email : String)
    (hlen : bearerConst.length ≤ h.length)
    (hdrop : h.drop bearerConst.length = s)
    (hexp : valTime < issueTime + refreshTokenLifetime) :
    (RefreshTokenHandler validateTok secret now store s).isOk =
      (VerifyTokenHandler validateTok store s).isOk ∧
    (AuthMiddleware validateTok store h).isOk =
      (VerifyTokenHandler validateTok store s).isOk ∧
    (GenerateToken secret issueTime id email).claims =
      { userID := id, email := email, issuedAt := issueTime
        expiresAt := issueTime + accessTokenLifetime } ∧
    (GenerateRefreshToken secret issueTime id email).claims =
      { userID := id, email := email, issuedAt := issueTime
        expiresAt := issueTime + refreshTokenLifetime } ∧
    ValidateToken secret valTime (GenerateRefreshToken secret issueTime id email) =
      some (GenerateRefreshToken secret issueTime id email).claims := by
  have hne : ¬ h = "" := by
    intro he
    rw [he] at hlen
    exact absurd hlen (by decide)
  have hnlt : ¬ h.length < bearerConst.length := Nat.not_lt.mpr hlen
  refine ⟨?_, ?_, rfl, rfl, ?_⟩
  · cases hv : validateTok s with
    | none =>
      simp [RefreshTokenHandler, VerifyTokenHandler, hv,
        RefreshOutcome.isOk, VerifyOutcome.isOk]
    | some claims =>
      cases hg : GetUser store claims.userID with
      | none =>
        simp [RefreshTokenHandler, VerifyTokenHandler, hv, hg,
          RefreshOutcome.isOk, VerifyOutcome.isOk]
      | some user =>
        by_cases ha : user.active = false <;>
          simp [RefreshTokenHandler, VerifyTokenHandler, hv, hg, ha,
            RefreshOutcome.isOk, VerifyOutcome.isOk]
  · cases hv : validateTok s with
    | none =>
      simp [AuthMiddleware, VerifyTokenHandler, hne, hnlt, hdrop, hv,
        AuthOutcome.isOk, VerifyOutcome.isOk]
    | some claims =>
      cases hg : GetUser store claims.userID with
      | none =>
        simp [AuthMiddleware, VerifyTokenHandler, hne, hnlt, hdrop, hv, hg,
          AuthOutcome.isOk, VerifyOutcome.isOk]
      | some user =>
        by_cases ha : user.active = false <;>
          simp [AuthMiddleware, VerifyTokenHandler, hne, hnlt, hdrop, hv, hg, ha,
            AuthOutcome.isOk, VerifyOutcome.isOk]
  · simp [ValidateToken, GenerateRefreshToken, hexp]

/-- Witness for claim C8 at concrete inputs: the demo wire token and the
bearer header carrying it. -/
theorem refresh_access_same_validator_witness :
    (RefreshTokenHandler demoValidate 7 0 demoStore "tok3").isOk =
      (VerifyTokenHandler demoValidate demoStore "tok3").isOk ∧
    (AuthMiddleware demoValidate demoStore "Bearer tok3").isOk =
      (VerifyTokenHandler demoValidate demoStore "tok3").isOk ∧
    (GenerateToken 7 0 3 "customer@example.com").claims =
      { userID := 3, email := "customer@example.com", issuedAt := 0
        expiresAt := 0 + accessTokenLifetime } ∧
    (GenerateRefreshToken 7 0 3 "customer@example.com").claims =
      { userID := 3, email := "customer@example.com", issuedAt := 0
        expiresAt := 0 + refreshTokenLifetime } ∧
    ValidateToken 7 5 (GenerateRefreshToken 7 0 3 "customer@example.com") =
      some (GenerateRefreshToken 7 0 3 "customer@example.com").claims :=
  refresh_access_same_validator demoValidate 7 0 0 5 demoStore "tok3"
    "Bearer tok3" 3 "customer@example.com" (by decide) (by decide) (by decide)

/-- Claim C9: the password hash is write-only at the API surface — the
serialization function ignores it, the verify endpoint's whole response is
unchanged when every stored hash is rewritten, and the register endpoint's
response does not depend on the hashing function. -/
theorem password_hash_never_serialized
    (u : User) (hpw : String) (g : User → String)
    (validateTok : String → Option Claims) (store : List User) (s : String)
    (hash1 hash2 : String → String) (newId now : Nat) (req : RegisterRequest) :
    newUserResponse { u with passwordHash := hpw } = newUserResponse u ∧
    VerifyTokenHandler validateTok
        (store.map fun x => { x with passwordHash := g x }) s =
      VerifyTokenHandler validateTok store s ∧
    (RegisterUser hash1 newId now store req).1 =
      (RegisterUser hash2 newId now store req).1 := by
  refine ⟨rfl, ?_, ?_⟩
  · cases hv : validateTok s with
    | none => simp [VerifyTokenHandler, hv]
    | some claims =>
      have hmap := GetUser_map (fun x => { x with passwordHash := g x })
        (fun _ => rfl) store claims.userID
      cases hg : GetUser store claims.userID with
      | none =>
        rw [hg] at hmap
        simp only [Option.map_none'] at hmap
        simp [VerifyTokenHandler, hv, hg, hmap]
      | some user =>
        rw [hg] at hmap
        simp only [Option.map_some'] at hmap
        by_cases ha : user.active = false <;>
          simp [VerifyTokenHandler, hv, hg, hmap, ha, newUserResponse]
  · by_cases hex : UserExists store req.email = true
    · simp [RegisterUser, hex]
    · simp [RegisterUser, hex, newUserResponse, registeredUser]

/-- Claim C10: in profile self-update an empty-string name field means
"no change": the first and last name keep their stored values, and a
request with both fields empty leaves the user record exactly as it was. -/
theorem empty_name_update_is_noop
    (store : List User) (userID : Nat) (u : User)
    (req1 req2 req3 : UpdateUserRequest)
    (h1 : req1.firstName = "")
    (h2 : req2.lastName = "")
    (h3f : req3.firstName = "") (h3l : req3.lastName = "")
    (hget : GetUser store userID = some u) :
    (applyUpdate u req1).firstName = u.firstName ∧
    (applyUpdate u req2).lastName = u.lastName ∧
    UpdateCurrentUser store userID req3 =
      some (newUserResponse u, SaveUser store u) := by
  refine ⟨?_, ?_, ?_⟩
  · simp only [applyUpdate, h1]
    by_cases hl : req1.lastName = "" <;> simp [hl]
  · simp only [applyUpdate, h2]
    by_cases hf : req2.firstName = "" <;> simp [hf]
  · have happ : applyUpdate u req3 = u := by
      simp [applyUpdate, h3f, h3l]
    simp [UpdateCurrentUser, hget, happ]

/-- Witness for claim C10: empty name fields leave the demo customer's
names, and the all-empty request round-trips the record. -/
theorem empty_name_update_witness :
    (applyUpdate demoUser { firstName := "", lastName := "L" }).firstName =
      demoUser.firstName ∧
    (applyUpdate demoUser { firstName := "F", lastName := "" }).lastName =
      demoUser.lastName ∧
    UpdateCurrentUser demoStore 3 { firstName := "", lastName := "" } =
      some (newUserResponse demoUser, SaveUser demoStore demoUser) :=
  empty_name_update_is_noop demoStore 3 demoUser
    { firstName := "", lastName := "L" } { firstName := "F", lastName := "" }
    { firstName := "", lastName := "" }
    (by decide) (by decide) (by decide) (by decide) (by decide)

end AuthService
